import Mathlib

/- Verification of the client-side RPC multiplexer of src/src/remote/remote_driver.c:
   frame length decoding, inbound dispatch (REPLY / MESSAGE / STREAM), the event-loop
   error path, error re-raising, stream receive, serial issuance and the want_reply
   discipline.  Machine integers are modelled as Nat; the opaque XDR encoders and
   decoders of the generated procedure table are modelled as oracles carried with
   each frame, as the spec treats them as external collaborators. -/

namespace RemoteDriver

/-- Message type CALL (wire value 0, spec section 6.1). -/
def REMOTE_CALL : Nat := 0

/-- Message type REPLY (wire value 1). -/
def REMOTE_REPLY : Nat := 1

/-- Message type MESSAGE, an asynchronous notification (wire value 2). -/
def REMOTE_MESSAGE : Nat := 2

/-- Message type STREAM (wire value 3). -/
def REMOTE_STREAM : Nat := 3

/-- Status OK (wire value 0). -/
def REMOTE_OK : Nat := 0

/-- Status ERROR (wire value 1). -/
def REMOTE_ERROR : Nat := 1

/-- Status CONTINUE (wire value 2). -/
def REMOTE_CONTINUE : Nat := 2

/-- Length of the XDR-encoded length word: a u_int is always 4 bytes (RFC 4506).
The generated protocol header that defines it is not under src; the value 4 is
fixed by the spec (a 4-byte big-endian total length). -/
def REMOTE_MESSAGE_HEADER_XDR_LEN : Nat := 4

/-- Modelled from the spec: REMOTE_MESSAGE_MAX, the compile-time maximum message
body size from the generated protocol header (not under src); the spec says it is
on the order of hundreds of kilobytes. -/
def REMOTE_MESSAGE_MAX : Nat := 262144

/-- Modelled from the spec: the control-plane program number from the generated
protocol header (not under src). Only its distinctness from QEMU_PROGRAM matters. -/
def REMOTE_PROGRAM : Nat := 0x20008086

/-- Modelled from the spec: the control-plane protocol version. -/
def REMOTE_PROTOCOL_VERSION : Nat := 1

/-- Modelled from the spec: the hypervisor-specific sub-protocol program number. -/
def QEMU_PROGRAM : Nat := 0x20008087

/-- Modelled from the spec: the hypervisor-specific sub-protocol version. -/
def QEMU_PROTOCOL_VERSION : Nat := 1

/-- Size of the XDR-encoded remote_message_header: six 4-byte fields
(program, version, procedure, type, serial, status; spec section 6.1). -/
def headerXdrSize : Nat := 24

/-- The per-call flag bits REMOTE_CALL_IN_OPEN, REMOTE_CALL_QUIET_MISSING_RPC,
REMOTE_CALL_QEMU and REMOTE_CALL_NONBLOCK (remote_driver.c:200), modelled as one
Boolean per bit. -/
structure CallFlags where
  in_open : Bool
  quiet_missing : Bool
  qemu : Bool
  nonblock : Bool
deriving DecidableEq

/-- The call modes REMOTE_MODE_WAIT_TX, WAIT_RX, COMPLETE, ERROR
(remote_driver.c:95). -/
inductive Mode where
  | WAIT_TX
  | WAIT_RX
  | COMPLETE
  | ERROR
deriving DecidableEq

/-- The XDR remote_error record: code, domain, optional message, level, up to
three optional strings and two integers (spec section 6.1; the optional domain
object and network pointers carry no data relevant here). C strings are
modelled as byte lists. -/
structure RemoteError where
  code : Nat
  domain : Nat
  message : Option (List Nat)
  level : Nat
  str1 : Option (List Nat)
  str2 : Option (List Nat)
  str3 : Option (List Nat)
  int1 : Int
  int2 : Int
deriving DecidableEq

/-- struct remote_message_header. -/
structure MessageHeader where
  prog : Nat
  vers : Nat
  proc : Nat
  type : Nat
  serial : Nat
  status : Nat
deriving DecidableEq

/-- struct remote_thread_call (remote_driver.c:102). The outbound buffer is
tracked by its length and offset; ret is the slot the call's result decoder
fills; err is the slot xdr_remote_error fills. -/
structure ThreadCall where
  mode : Mode
  bufferLength : Nat
  bufferOffset : Nat
  serial : Nat
  proc_nr : Nat
  want_reply : Bool
  ret : Option (List Nat)
  err : Option RemoteError
deriving DecidableEq

/-- struct private_stream_data (remote_driver.c:125): incoming models the valid
inbound bytes buffer[0, incomingOffset); capacity growth via VIR_REALLOC_N is not
observable at this level. -/
structure StreamData where
  has_error : Bool
  err : Option RemoteError
  serial : Nat
  proc_nr : Nat
  incoming : List Nat
deriving DecidableEq

/-- One fully assembled inbound frame together with the results the opaque XDR
decoders would produce on its body: retDec is what the located call's ret_filter
yields (none = decode failure), errDec what xdr_remote_error yields, and eventDec
what the type-specific event reader yields. The spec treats each decoder as an
external collaborator, so they enter the model as oracles attached to the frame. -/
structure WireFrame where
  hdr : MessageHeader
  body : List Nat
  retDec : Option (List Nat)
  errDec : Option RemoteError
  eventDec : Option Nat
deriving DecidableEq

/-- The connection state touched by inbound dispatch: the wait queue of calls,
the stream registry, and the queued domain events (remoteDomainEventQueue
appends; events are identified by an abstract id). -/
structure DispatchState where
  calls : List ThreadCall
  streams : List StreamData
  events : List Nat
deriving DecidableEq

/-- prepareCall (remote_driver.c:4952): allocate the next serial (counter++),
set want_reply = 1, pick the (program, version) pair from REMOTE_CALL_QEMU, and
encode the CALL header followed by the arguments into the outbound buffer whose
total length is the 4-byte length word plus header plus argsLen encoded argument
bytes. Returns the call, the header encoded into its buffer, and the advanced
counter. Allocation or marshal failures return NULL without issuing a message
and are not modelled. -/
def prepareCall (counter : Nat) (flags : CallFlags) (proc_nr : Nat) (argsLen : Nat) :
    ThreadCall × MessageHeader × Nat :=
  let hdr : MessageHeader :=
    { prog := if flags.qemu then QEMU_PROGRAM else REMOTE_PROGRAM
      vers := if flags.qemu then QEMU_PROTOCOL_VERSION else REMOTE_PROTOCOL_VERSION
      proc := proc_nr
      type := REMOTE_CALL
      serial := counter
      status := REMOTE_OK }
  let c : ThreadCall :=
    { mode := Mode.WAIT_TX
      bufferLength := REMOTE_MESSAGE_HEADER_XDR_LEN + headerXdrSize + argsLen
      bufferOffset := 0
      serial := counter
      proc_nr := proc_nr
      want_reply := true
      ret := none
      err := none }
  (c, hdr, counter + 1)

/-- Issue n consecutive calls on one connection through prepareCall, threading
the connection's serial counter; returns the calls in issue order and the final
counter value. -/
def issueCalls (flags : CallFlags) (proc_nr argsLen : Nat) :
    Nat → Nat → List ThreadCall × Nat
  | counter, 0 => ([], counter)
  | counter, n+1 =>
    let r := prepareCall counter flags proc_nr argsLen
    let rest := issueCalls flags proc_nr argsLen r.2.2 n
    (r.1 :: rest.1, rest.2)

/-- remoteStreamPacket (remote_driver.c:4009): build the pseudo-call for one
outbound STREAM frame on the stream identified by (serial, proc_nr). VIR_ALLOC
zeroes the call, then want_reply is set only for status OK or ERROR; the payload
is included only for CONTINUE, and an oversized CONTINUE payload is rejected. -/
def remoteStreamPacket (serial proc_nr : Nat) (status : Nat) (nbytes : Nat) :
    Option ThreadCall :=
  let headerLen := REMOTE_MESSAGE_HEADER_XDR_LEN + headerXdrSize
  if status = REMOTE_CONTINUE ∧ (4 + REMOTE_MESSAGE_MAX) - headerLen < nbytes then
    none
  else
    some
      { mode := Mode.WAIT_TX
        bufferLength := headerLen + (if status = REMOTE_CONTINUE then nbytes else 0)
        bufferOffset := 0
        serial := serial
        proc_nr := proc_nr
        want_reply := status == REMOTE_OK || status == REMOTE_ERROR
        ret := none
        err := none }

/-- remoteIOWriteMessage, plain branch (remote_driver.c:5189): written is the
byte count remoteIOWriteBuffer reported (0 = would block). On completing the
buffer the offsets reset and the call moves to WAIT_RX when it expects a reply,
else to COMPLETE. -/
def remoteIOWriteMessage (c : ThreadCall) (written : Nat) : ThreadCall :=
  let c1 : ThreadCall := { c with bufferOffset := c.bufferOffset + written }
  if c1.bufferOffset = c1.bufferLength then
    { c1 with
      bufferOffset := 0
      bufferLength := 0
      mode := if c1.want_reply then Mode.WAIT_RX else Mode.COMPLETE }
  else c1

/-- XDR u_int decode of the length word: the first four buffered bytes, big
endian (RFC 4506); none when fewer than 4 bytes are present. -/
def xdrDecodeU32 : List Nat → Option Nat
  | b0 :: b1 :: b2 :: b3 :: _ =>
    some ((b0 % 256) * 16777216 + (b1 % 256) * 65536 + (b2 % 256) * 256 + b3 % 256)
  | _ => none

/-- remoteIODecodeMessageLength (remote_driver.c:5305): decode the length word,
reject a declared total below REMOTE_MESSAGE_HEADER_XDR_LEN (packet too small)
or a body above REMOTE_MESSAGE_MAX (packet too large), else return the extended
bufferLength so the read loop carries on reading header plus payload. -/
def remoteIODecodeMessageLength (bufferLength : Nat) (buffer : List Nat) : Option Nat :=
  match xdrDecodeU32 buffer with
  | none => none
  | some len =>
    if len < REMOTE_MESSAGE_HEADER_XDR_LEN then none
    else if len - REMOTE_MESSAGE_HEADER_XDR_LEN > REMOTE_MESSAGE_MAX then none
    else some (bufferLength + (len - REMOTE_MESSAGE_HEADER_XDR_LEN))

/-- Walk the wait queue to the first call whose serial matches (the lookup loops
at remote_driver.c:5438 and :5568) and rewrite it with f; none when no call
matches or f fails on the matching call. -/
def updateCallBySerial (serial : Nat) (f : ThreadCall → Option ThreadCall) :
    List ThreadCall → Option (List ThreadCall)
  | [] => none
  | c :: rest =>
    if c.serial = serial then (f c).map (fun c2 => c2 :: rest)
    else (updateCallBySerial serial f rest).map (fun l => c :: l)

/-- The wait-queue lookup by serial used by the stream dispatcher
(remote_driver.c:5568). -/
def findCallBySerial (serial : Nat) : List ThreadCall → Option ThreadCall
  | [] => none
  | c :: rest => if c.serial = serial then some c else findCallBySerial serial rest

/-- Replace the first call whose serial matches. -/
def setCallBySerial (serial : Nat) (c2 : ThreadCall) :
    List ThreadCall → List ThreadCall
  | [] => []
  | c :: rest =>
    if c.serial = serial then c2 :: rest else c :: setCallBySerial serial c2 rest

/-- The stream lookup at remote_driver.c:5555: the walk advances only while BOTH
the serial and the procedure differ, so it stops at the first stream whose serial
OR procedure matches the header. -/
def findStreamMatch (serial proc : Nat) : List StreamData → Option StreamData
  | [] => none
  | s :: rest =>
    if s.serial = serial ∨ s.proc_nr = proc then some s
    else findStreamMatch serial proc rest

/-- Replace the stream the lookup at remote_driver.c:5555 stops at. -/
def setStreamMatch (serial proc : Nat) (s2 : StreamData) :
    List StreamData → List StreamData
  | [] => []
  | s :: rest =>
    if s.serial = serial ∨ s.proc_nr = proc then s2 :: rest
    else s :: setStreamMatch serial proc s2 rest

/-- processCallDispatchStream (remote_driver.c:5546). body holds the frame
payload buffer[bufferOffset, bufferLength). CONTINUE appends the payload to the
located stream and completes a sibling call that wants a reply (otherwise only
the stream's event timer is updated, which leaves this state unchanged); OK
completes the paired call (error when none waits); ERROR is decoded into the
paired reply-wanting call, else stored once on the stream (a duplicate
asynchronous error is a protocol error); any other status is a protocol error. -/
def processCallDispatchStream (streams : List StreamData) (calls : List ThreadCall)
    (hdr : MessageHeader) (body : List Nat) (errDec : Option RemoteError) :
    Option (List StreamData × List ThreadCall) :=
  match findStreamMatch hdr.serial hdr.proc streams with
  | none => none
  | some privst =>
    let thecall := findCallBySerial hdr.serial calls
    if hdr.status = REMOTE_CONTINUE then
      let streams2 := setStreamMatch hdr.serial hdr.proc
        { privst with incoming := privst.incoming ++ body } streams
      match thecall with
      | some c =>
        if c.want_reply then
          some (streams2, setCallBySerial hdr.serial { c with mode := Mode.COMPLETE } calls)
        else
          some (streams2, calls)
      | none => some (streams2, calls)
    else if hdr.status = REMOTE_OK then
      match thecall with
      | none => none
      | some c =>
        some (streams, setCallBySerial hdr.serial { c with mode := Mode.COMPLETE } calls)
    else if hdr.status = REMOTE_ERROR then
      let asyncErr : Option (List StreamData × List ThreadCall) :=
        if privst.has_error then none
        else
          match errDec with
          | none => none
          | some e =>
            some (setStreamMatch hdr.serial hdr.proc
              { privst with has_error := true, err := some e } streams, calls)
      match thecall with
      | some c =>
        if c.want_reply then
          match errDec with
          | none => none
          | some e =>
            some (streams,
              setCallBySerial hdr.serial { c with mode := Mode.ERROR, err := some e } calls)
        else asyncErr
      | none => asyncErr
    else none

/-- Modelled from the spec: the asynchronous event procedure numbers recognised
by the switch at remote_driver.c:5504 (lifecycle, reboot, RTC change, watchdog,
I/O error, I/O error with reason, graphics). Their numeric values live in the
generated protocol header, which is not under src; only membership matters. -/
def knownEventProc (p : Nat) : Bool :=
  p == 107 || p == 149 || p == 150 || p == 151 || p == 152 || p == 153 || p == 172

/-- processCallDispatchMessage (remote_driver.c:5489): a MESSAGE received while
in open yields -1 (none); otherwise the event reader selected by hdr.proc runs
(an unrecognised procedure leaves the event NULL), a NULL event yields -1, and
a decoded event is queued by remoteDomainEventQueue (append). -/
def processCallDispatchMessage (in_open : Bool) (hdr : MessageHeader)
    (eventDec : Option Nat) (events : List Nat) : Option (List Nat) :=
  if in_open then none
  else
    match (if knownEventProc hdr.proc then eventDec else none) with
    | none => none
    | some ev => some (events ++ [ev])

/-- processCallDispatchReply (remote_driver.c:5429): locate the call by serial
(protocol error when nothing waits on hdr.serial), require hdr.proc to equal
that call's proc_nr, then status OK decodes the result into the call and
completes it, ERROR decodes the error record into the call, and any other
status is a protocol error. -/
def processCallDispatchReply (calls : List ThreadCall) (hdr : MessageHeader)
    (retDec : Option (List Nat)) (errDec : Option RemoteError) :
    Option (List ThreadCall) :=
  updateCallBySerial hdr.serial (fun c =>
    if hdr.proc ≠ c.proc_nr then none
    else if hdr.status = REMOTE_OK then
      retDec.map (fun r => { c with mode := Mode.COMPLETE, ret := some r })
    else if hdr.status = REMOTE_ERROR then
      errDec.map (fun e => { c with mode := Mode.ERROR, err := some e })
    else none) calls

/-- The expected program at remote_driver.c:5379: derived from the dispatching
call's flags, not from any located call. -/
def expectedProg (flags : CallFlags) : Nat :=
  if flags.qemu then QEMU_PROGRAM else REMOTE_PROGRAM

/-- The expected version at remote_driver.c:5380. -/
def expectedVers (flags : CallFlags) : Nat :=
  if flags.qemu then QEMU_PROTOCOL_VERSION else REMOTE_PROTOCOL_VERSION

/-- processCallDispatch (remote_driver.c:5357): after the header is decoded, the
(program, version) pair expected per the dispatching call's flags is checked
against the header, then the frame is routed on its type; an unexpected type is
a protocol error. -/
def processCallDispatch (flags : CallFlags) (f : WireFrame) (st : DispatchState) :
    Option DispatchState :=
  if f.hdr.prog ≠ expectedProg flags then none
  else if f.hdr.vers ≠ expectedVers flags then none
  else if f.hdr.type = REMOTE_REPLY then
    (processCallDispatchReply st.calls f.hdr f.retDec f.errDec).map
      (fun cs => { st with calls := cs })
  else if f.hdr.type = REMOTE_MESSAGE then
    (processCallDispatchMessage flags.in_open f.hdr f.eventDec st.events).map
      (fun es => { st with events := es })
  else if f.hdr.type = REMOTE_STREAM then
    (processCallDispatchStream st.streams st.calls f.hdr f.body f.errDec).map
      (fun p => { st with streams := p.1, calls := p.2 })
  else none

/-- Poll results on the transport descriptor for one event-loop iteration. -/
structure PollEvents where
  pollin : Bool
  hup : Bool
deriving DecidableEq

/-- A call in a terminal mode (remote_driver.c:5839 and :5861). -/
def terminal (c : ThreadCall) : Bool :=
  c.mode == Mode.COMPLETE || c.mode == Mode.ERROR

/-- Outcome of one remoteIOEventLoop iteration. errorOut is the goto error path
(return -1): the dispatcher's call is unlinked and the new head, if any, is
signaled; done is the normal exit (return 0) once the dispatcher's own call is
terminal; next continues the loop. signaled lists, in order, the calls whose
condition variables were signaled during the iteration. -/
inductive IterationOutcome where
  | errorOut (waitDispatch : List ThreadCall) (signaled : List ThreadCall)
  | done (waitDispatch : List ThreadCall) (signaled : List ThreadCall)
  | next (st : DispatchState) (signaled : List ThreadCall)
deriving DecidableEq

/-- One iteration of remoteIOEventLoop (remote_driver.c:5822-5896) after poll
returns, for an iteration in which POLLOUT did not fire (the write sub-machine
is modelled separately by remoteIOWriteMessage). The dispatcher's own call is
the head of st.calls. frame is the fully assembled frame remoteIOHandleInput
dispatches on POLLIN (none when the read blocks before completing one, which
returns 0). A dispatch error makes remoteIOHandleInput return -1 and jumps to
the error label at once; otherwise every terminal call other than the head is
unlinked and signaled, then the head exits passing the buck when terminal, and
only then does POLLHUP/POLLERR take the error path. -/
def remoteIOEventLoopIteration (ev : PollEvents) (flags : CallFlags)
    (frame : Option WireFrame) (st : DispatchState) : IterationOutcome :=
  let afterInput : Option DispatchState :=
    if ev.pollin then
      match frame with
      | none => some st
      | some f => processCallDispatch flags f st
    else some st
  match afterInput with
  | none => IterationOutcome.errorOut st.calls.tail st.calls.tail.head?.toList
  | some st1 =>
    match st1.calls with
    | [] => IterationOutcome.next st1 []
    | thiscall :: rest =>
      let keep := rest.filter (fun c => ! terminal c)
      let woken := rest.filter (fun c => terminal c)
      if terminal thiscall then
        IterationOutcome.done keep (woken ++ keep.head?.toList)
      else if ev.hup then
        IterationOutcome.errorOut keep (woken ++ keep.head?.toList)
      else
        IterationOutcome.next { st1 with calls := thiscall :: keep } woken

/- Numeric values of the virterror.h public enums referenced by remoteIO's
   cleanup; the public error header is not under src, so these are modelled
   from the spec's error-kind list with the library's published numbering. -/

/-- UNSUPPORTED: the remote procedure does not exist on the peer. -/
def VIR_ERR_NO_SUPPORT : Nat := 3

/-- RPC: carries a server-sent error record. -/
def VIR_ERR_RPC : Nat := 39

/-- The 0.7.x warning code for a missing network filter. -/
def VIR_WAR_NO_NWFILTER : Nat := 60

/-- The 0.7.x code for an invalid network filter. -/
def VIR_ERR_INVALID_NWFILTER : Nat := 61

/-- The 0.7.x code for a missing network filter. -/
def VIR_ERR_NO_NWFILTER : Nat := 62

/-- The 0.7.x code for a firewall build failure. -/
def VIR_ERR_BUILD_FIREWALL : Nat := 63

/-- The warning code for a missing secret. -/
def VIR_WAR_NO_SECRET : Nat := 64

/-- The code for an invalid secret. -/
def VIR_ERR_INVALID_SECRET : Nat := 65

/-- The operation-timeout code the glitch remapping targets. -/
def VIR_ERR_OPERATION_TIMEOUT : Nat := 68

/-- The migrate-persist-failed code the glitch remapping targets. -/
def VIR_ERR_MIGRATE_PERSIST_FAILED : Nat := 69

/-- Error domain: the Xen driver. -/
def VIR_FROM_XEN : Nat := 1

/-- Error domain: the QEMU driver. -/
def VIR_FROM_QEMU : Nat := 10

/-- Error domain: the remote driver. -/
def VIR_FROM_REMOTE : Nat := 13

/-- Error domain: the network-filter driver. -/
def VIR_FROM_NWFILTER : Nat := 33

/-- Error level ERROR. -/
def VIR_ERR_ERROR : Nat := 2

/-- The error delivered to the caller by virRaiseErrorFull (strings as byte
lists; absent optional strings are passed through as NULL = none). -/
structure RaisedError where
  domain : Nat
  code : Nat
  level : Nat
  str1 : Option (List Nat)
  str2 : Option (List Nat)
  str3 : Option (List Nat)
  int1 : Int
  int2 : Int
  message : List Nat
deriving DecidableEq

/-- The caller-visible result of remoteIO: 0, the -2 UNSUPPORTED sentinel, or -1
with a raised error. -/
inductive CallOutcome where
  | ok
  | unsupported
  | raised (e : RaisedError)
deriving DecidableEq

/-- The 0.8.0 interop glitch remapping (remote_driver.c:6045): certain error
codes sent by 0.7.1 through 0.7.7 servers are rewritten before the error is
raised (codes shifted by the four entries inserted into the error enum). -/
def interopFixup (e : RemoteError) : RemoteError :=
  if e.code = VIR_WAR_NO_NWFILTER then e
  else if e.code = VIR_ERR_INVALID_NWFILTER ∨ e.code = VIR_ERR_NO_NWFILTER ∨
      e.code = VIR_ERR_BUILD_FIREWALL then
    (if e.domain ≠ VIR_FROM_NWFILTER then { e with code := e.code + 4 } else e)
  else if e.code = VIR_WAR_NO_SECRET then
    (if e.domain = VIR_FROM_QEMU then { e with code := VIR_ERR_OPERATION_TIMEOUT } else e)
  else if e.code = VIR_ERR_INVALID_SECRET then
    (if e.domain = VIR_FROM_XEN then { e with code := VIR_ERR_MIGRATE_PERSIST_FAILED } else e)
  else e

/-- The text the server's canonical missing-procedure error message starts with
(remote_driver.c:6079), as ASCII bytes: the characters of the words unknown,
space, procedure. -/
def unknownProcMsgStart : List Nat :=
  [117, 110, 107, 110, 111, 119, 110, 32,
   112, 114, 111, 99, 101, 100, 117, 114, 101]

/-- The fallback message text used when the server record carries none
(remote_driver.c:6111), as ASCII bytes: the characters of the word unknown. -/
def unknownFallbackMsg : List Nat :=
  [117, 110, 107, 110, 111, 119, 110]

/-- The canonical missing-procedure test at remote_driver.c:6074: an error from
VIR_FROM_REMOTE with code VIR_ERR_RPC, level VIR_ERR_ERROR, and a message
starting with the unknown-procedure text (STRPREFIX). -/
def isUnknownProcErr (e : RemoteError) : Bool :=
  e.domain == VIR_FROM_REMOTE && e.code == VIR_ERR_RPC && e.level == VIR_ERR_ERROR &&
    (match e.message with
     | some m => List.isPrefixOf unknownProcMsgStart m
     | none => false)

/-- The tail of remoteIO (remote_driver.c:6042-6118): a call that did not end in
ERROR returns 0; on ERROR, the interop remapping runs first, then a
quiet-missing unknown-procedure error becomes the -2 UNSUPPORTED sentinel
without raising, an unknown-procedure error without the flag is raised with its
code replaced by VIR_ERR_NO_SUPPORT, and every other error is raised with its
fields intact (the message defaults to "unknown" when absent). -/
def remoteIOCleanup (flags : CallFlags) (mode : Mode) (errIn : RemoteError) :
    CallOutcome :=
  if mode ≠ Mode.ERROR then CallOutcome.ok
  else
    let e := interopFixup errIn
    if flags.quiet_missing && isUnknownProcErr e then CallOutcome.unsupported
    else if isUnknownProcErr e then
      CallOutcome.raised
        { domain := e.domain
          code := VIR_ERR_NO_SUPPORT
          level := e.level
          str1 := e.str1
          str2 := e.str2
          str3 := e.str3
          int1 := e.int1
          int2 := e.int2
          message := e.message.getD [] }
    else
      CallOutcome.raised
        { domain := e.domain
          code := e.code
          level := e.level
          str1 := e.str1
          str2 := e.str2
          str3 := e.str3
          int1 := e.int1
          int2 := e.int2
          message := e.message.getD unknownFallbackMsg }

/-- The copy-out step of remoteStreamRecv (remote_driver.c:4237-4248): take
want = min(buffered, nbytes) bytes from the front and shift the remainder down
to the front of the inbound buffer. -/
def remoteStreamRecvCopy (incoming : List Nat) (nbytes : Nat) :
    List Nat × List Nat :=
  let want := min incoming.length nbytes
  (incoming.take want, incoming.drop want)

/-- remoteStreamRecv's caller-visible result: -1 (error; the stream is
released), -2 (would block), or the copied bytes with the new inbound buffer. -/
inductive StreamRecvResult where
  | released
  | wouldBlock
  | bytes (out : List Nat) (buf : List Nat)
deriving DecidableEq

/-- remoteStreamRecv (remote_driver.c:4186). A stream holding a stored error
raises it and is released (-1). With an empty inbound buffer, a non-blocking
stream returns -2; a blocking one submits a pseudo-call in WAIT_RX through the
multiplexer, and afterWait is the inbound buffer once that pseudo-call
completes (ioOk false models a failed submission, after which the stream is
released). Then min(buffered, nbytes) bytes are copied out of the front and the
remainder is shifted to the front. -/
def remoteStreamRecv (nonblock hasErr ioOk : Bool)
    (incoming afterWait : List Nat) (nbytes : Nat) : StreamRecvResult :=
  if hasErr then StreamRecvResult.released
  else if incoming.length = 0 then
    if nonblock then StreamRecvResult.wouldBlock
    else if ioOk then
      let p := remoteStreamRecvCopy afterWait nbytes
      StreamRecvResult.bytes p.1 p.2
    else StreamRecvResult.released
  else
    let p := remoteStreamRecvCopy incoming nbytes
    StreamRecvResult.bytes p.1 p.2

/-- The amended reply-routing property, stated in the claim's terms for
comparison with processCallDispatch: the header's program and version are
verified against the pair selected by the DISPATCHING call's flags, the call is
located by serial (first match, nothing earlier matching), the header's
procedure must equal that call's, and the located call alone transitions:
to COMPLETE with the decoded result on OK, to ERROR with the decoded error
record on ERROR; success implies the status was one of these two. -/
def ReplyRoutingAmended (flags : CallFlags) (f : WireFrame) (st st2 : DispatchState) :
    Prop :=
  f.hdr.prog = expectedProg flags ∧ f.hdr.vers = expectedVers flags ∧
  st2.streams = st.streams ∧ st2.events = st.events ∧
  ∃ pre c post,
    st.calls = pre ++ c :: post ∧
    (∀ d ∈ pre, d.serial ≠ f.hdr.serial) ∧
    c.serial = f.hdr.serial ∧
    f.hdr.proc = c.proc_nr ∧
    ((f.hdr.status = REMOTE_OK ∧ ∃ r, f.retDec = some r ∧
        st2.calls = pre ++ { c with mode := Mode.COMPLETE, ret := some r } :: post) ∨
     (f.hdr.status = REMOTE_ERROR ∧ ∃ e, f.errDec = some e ∧
        st2.calls = pre ++ { c with mode := Mode.ERROR, err := some e } :: post))

/- Concrete fixtures used by counterexamples and witnesses. -/

/-- Flags of an ordinary call: no bit set. -/
def plainFlags : CallFlags :=
  { in_open := false, quiet_missing := false, qemu := false, nonblock := false }

/-- Flags of a hypervisor-specific (REMOTE_CALL_QEMU) call. -/
def qemuFlags : CallFlags :=
  { in_open := false, quiet_missing := false, qemu := true, nonblock := false }

/-- Flags of a call issued while the connection is being opened. -/
def openFlags : CallFlags :=
  { in_open := true, quiet_missing := false, qemu := false, nonblock := false }

/-- Flags of a quiet-missing call. -/
def quietFlags : CallFlags :=
  { in_open := false, quiet_missing := true, qemu := false, nonblock := false }

/-- A registered stream with serial 1, procedure 3 and an empty inbound buffer. -/
def c1Stream : StreamData :=
  { has_error := false, err := none, serial := 1, proc_nr := 3, incoming := [] }

/-- An inbound STREAM CONTINUE header that matches c1Stream on serial only. -/
def c1Hdr : MessageHeader :=
  { prog := REMOTE_PROGRAM, vers := REMOTE_PROTOCOL_VERSION, proc := 4,
    type := REMOTE_STREAM, serial := 1, status := REMOTE_CONTINUE }

/-- A call prepared with the REMOTE_CALL_QEMU flag: its encoded header (what it
expects back) carries the qemu pair. -/
def c2Prepared : ThreadCall × MessageHeader × Nat := prepareCall 5 qemuFlags 7 10

/-- A REPLY frame carrying the control-plane pair for serial 5, procedure 7. -/
def c2ReplyFrame : WireFrame :=
  { hdr := { prog := REMOTE_PROGRAM, vers := REMOTE_PROTOCOL_VERSION, proc := 7,
             type := REMOTE_REPLY, serial := 5, status := REMOTE_OK },
    body := [], retDec := some [1], errDec := none, eventDec := none }

/-- The dispatch state whose only queued call is the qemu-flagged call. -/
def c2StateIn : DispatchState :=
  { calls := [c2Prepared.1], streams := [], events := [] }

/-- An ordinary waiting call with serial 5, procedure 7. -/
def c2wCall : ThreadCall :=
  { mode := Mode.WAIT_RX, bufferLength := 0, bufferOffset := 0, serial := 5,
    proc_nr := 7, want_reply := true, ret := none, err := none }

/-- Witness input state for reply routing. -/
def c2wStateIn : DispatchState :=
  { calls := [c2wCall], streams := [], events := [] }

/-- Witness output state: the located call completed with the decoded result. -/
def c2wStateOut : DispatchState :=
  { calls := [{ c2wCall with mode := Mode.COMPLETE, ret := some [1] }],
    streams := [], events := [] }

/-- A dispatcher's own call (head of the queue), not terminal. -/
def c3CallA : ThreadCall :=
  { mode := Mode.WAIT_TX, bufferLength := 10, bufferOffset := 0, serial := 1,
    proc_nr := 11, want_reply := true, ret := none, err := none }

/-- A second outstanding call, waiting for its reply. -/
def c3CallB : ThreadCall :=
  { mode := Mode.WAIT_RX, bufferLength := 0, bufferOffset := 0, serial := 2,
    proc_nr := 12, want_reply := true, ret := none, err := none }

/-- A third outstanding call, waiting for its reply. -/
def c3CallC : ThreadCall :=
  { mode := Mode.WAIT_RX, bufferLength := 0, bufferOffset := 0, serial := 3,
    proc_nr := 13, want_reply := true, ret := none, err := none }

/-- A wait queue with a dispatcher and two sleeping waiters. -/
def c3State : DispatchState :=
  { calls := [c3CallA, c3CallB, c3CallC], streams := [], events := [] }

/-- A frame whose program number matches no expectation, so dispatch fails. -/
def c3BadFrame : WireFrame :=
  { hdr := { prog := 0, vers := 0, proc := 0, type := REMOTE_REPLY, serial := 0,
             status := REMOTE_OK },
    body := [], retDec := none, errDec := none, eventDec := none }

/-- A server error record hitting the interop glitch remapping: the secret
warning code from the QEMU domain, with a two-byte message. -/
def c4GlitchErr : RemoteError :=
  { code := VIR_WAR_NO_SECRET, domain := VIR_FROM_QEMU, message := some [111, 112],
    level := VIR_ERR_ERROR, str1 := none, str2 := none, str3 := none,
    int1 := 0, int2 := 0 }

/-- A server error record no special case touches. -/
def c4PlainErr : RemoteError :=
  { code := 5, domain := 2, message := some [104, 105], level := VIR_ERR_ERROR,
    str1 := some [97], str2 := none, str3 := none, int1 := 7, int2 := 8 }

/-- The canonical unknown-procedure error record: VIR_FROM_REMOTE, VIR_ERR_RPC,
level ERROR, message starting with the unknown-procedure text (followed by the
bytes of colon, space, 212). -/
def unknownProcErrRec : RemoteError :=
  { code := VIR_ERR_RPC, domain := VIR_FROM_REMOTE,
    message := some (unknownProcMsgStart ++ [58, 32, 50, 49, 50]),
    level := VIR_ERR_ERROR, str1 := none, str2 := none, str3 := none,
    int1 := 0, int2 := 0 }

/-- A well-formed inbound MESSAGE frame for the lifecycle event procedure whose
event record decodes fine. -/
def c6EventFrame : WireFrame :=
  { hdr := { prog := REMOTE_PROGRAM, vers := REMOTE_PROTOCOL_VERSION, proc := 107,
             type := REMOTE_MESSAGE, serial := 9, status := REMOTE_OK },
    body := [], retDec := none, errDec := none, eventDec := some 42 }

/-- The same frame with an unrecognised event procedure number. -/
def c6UnknownFrame : WireFrame :=
  { c6EventFrame with hdr := { c6EventFrame.hdr with proc := 999 } }

/-- The open (or any) RPC call the dispatcher is working for. -/
def c6Call : ThreadCall :=
  { mode := Mode.WAIT_RX, bufferLength := 0, bufferOffset := 0, serial := 1,
    proc_nr := 2, want_reply := true, ret := none, err := none }

/-- The dispatcher's state while its call waits for its reply. -/
def c6State : DispatchState :=
  { calls := [c6Call], streams := [], events := [] }

/-- The pseudo-call remoteStreamPacket builds for a stream OK (finish) frame on
stream (serial 1, procedure 3): header-only buffer, reply expected. -/
def c10Packet : ThreadCall :=
  { mode := Mode.WAIT_TX,
    bufferLength := REMOTE_MESSAGE_HEADER_XDR_LEN + headerXdrSize,
    bufferOffset := 0,
    serial := 1,
    proc_nr := 3,
    want_reply := true,
    ret := none,
    err := none }

/-- Splitting lemma for the wait-queue walk: a successful update decomposes the
queue into an untouched prefix of non-matching calls, the first call matching the
serial rewritten by f, and the untouched remainder. -/
theorem updateCallBySerial_some_split {s : Nat} {f : ThreadCall → Option ThreadCall}
    {l l2 : List ThreadCall} (h : updateCallBySerial s f l = some l2) :
    ∃ pre c post c2, l = pre ++ c :: post ∧ (∀ d ∈ pre, d.serial ≠ s) ∧
      c.serial = s ∧ f c = some c2 ∧ l2 = pre ++ c2 :: post := by
  induction l generalizing l2 with
  | nil => simp [updateCallBySerial] at h
  | cons a rest ih =>
    rw [updateCallBySerial] at h
    by_cases ha : a.serial = s
    · rw [if_pos ha] at h
      rcases Option.map_eq_some'.mp h with ⟨c2, hfc, hl2⟩
      exact ⟨[], a, rest, c2, rfl, by simp, ha, hfc, hl2.symm⟩
    · rw [if_neg ha] at h
      rcases Option.map_eq_some'.mp h with ⟨l3, hrec, hl2⟩
      rcases ih hrec with ⟨pre, c, post, c2, hsplit, hpre, hcs, hfc, hl3⟩
      refine ⟨a :: pre, c, post, c2, by simp [hsplit], ?_, hcs, hfc, by simp [← hl2, hl3]⟩
      intro d hd
      rcases List.mem_cons.mp hd with h1 | h2
      · rw [h1]; exact ha
      · exact hpre d h2

/-- A queue of calls none of which is terminal passes unchanged through the
wake-up scan of the event loop. -/
theorem filter_terminal_none {l : List ThreadCall} (h : ∀ c ∈ l, terminal c = false) :
    l.filter (fun c => ! terminal c) = l ∧ l.filter (fun c => terminal c) = [] := by
  induction l with
  | nil => simp
  | cons a t ih =>
    have ha := h a (by simp)
    rcases ih (fun c hc => h c (List.mem_cons_of_mem _ hc)) with ⟨h1, h2⟩
    simp [List.filter_cons, ha, h1, h2]

/-- The canonical unknown-procedure error has code VIR_ERR_RPC, so the interop
glitch remapping leaves it untouched. -/
theorem interopFixup_unknownProc {e : RemoteError} (h : isUnknownProcErr e = true) :
    interopFixup e = e := by
  have hc : e.code = VIR_ERR_RPC := by
    unfold isUnknownProcErr at h
    simp only [Bool.and_eq_true, beq_iff_eq] at h
    exact h.1.1.2
  unfold interopFixup
  rw [hc]
  simp [VIR_ERR_RPC, VIR_WAR_NO_NWFILTER, VIR_ERR_INVALID_NWFILTER,
        VIR_ERR_NO_NWFILTER, VIR_ERR_BUILD_FIREWALL, VIR_WAR_NO_SECRET,
        VIR_ERR_INVALID_SECRET]

/-- C1. The claim says a STREAM frame is delivered only to a stream whose
(serial, procedure) pair BOTH match the header, and that a stream matching on one
field only must not receive it. The code's lookup loop advances only while both
fields differ, so it stops at a stream matching either field: here a CONTINUE
frame with serial 1 and procedure 4 is appended to the inbound buffer of the
registered stream (serial 1, procedure 3), which matches on serial alone. This
contradicts the claim, the spec's stream identity, and the lookup's own intent
(a code bug). -/
theorem C1_stream_match_code_bug :
    processCallDispatchStream [c1Stream] [] c1Hdr [7, 8] none =
      some ([{ c1Stream with incoming := [7, 8] }], []) ∧
    c1Stream.proc_nr ≠ c1Hdr.proc ∧ c1Stream.serial = c1Hdr.serial := by decide

/-- C6. The claim says a MESSAGE frame arriving during open, or carrying an
unrecognised event procedure, is logged and dropped without affecting the
connection. In the code processCallDispatchMessage returns -1 (none) for both,
remoteIOHandleInput propagates the -1, and the event loop jumps to its error
label: the iteration ends in errorOut with the dispatcher's own call unlinked
and remoteIO returning -1, so that call fails. The code contradicts its own
debug text (Ignoring bogus event) and the spec: a code bug. -/
theorem C6_bogus_event_code_bug :
    processCallDispatchMessage true c6EventFrame.hdr (some 42) [] = none ∧
    processCallDispatchMessage false c6UnknownFrame.hdr (some 42) [] = none ∧
    remoteIOEventLoopIteration { pollin := true, hup := false } openFlags
      (some c6EventFrame) c6State = IterationOutcome.errorOut [] [] ∧
    remoteIOEventLoopIteration { pollin := true, hup := false } plainFlags
      (some c6UnknownFrame) c6State = IterationOutcome.errorOut [] [] := by decide

/-- C2, counterexample. The claim says the dispatcher verifies the header's
program and version against the pair the LOCATED call itself expects. Here the
only queued call was prepared with the qemu flag, so the header it encoded (and
expects back) carries QEMU_PROGRAM; yet a REPLY carrying the control-plane pair
for its serial is dispatched successfully when the dispatching thread's flags
are plain, because the code compares against the dispatcher's flag-derived pair
before locating any call and never consults the located call's own pair. -/
theorem C2_reply_routing_cex :
    (processCallDispatch plainFlags c2ReplyFrame c2StateIn).isSome = true ∧
    c2ReplyFrame.hdr.prog ≠ c2Prepared.2.1.prog ∧
    c2Prepared.1.serial = c2ReplyFrame.hdr.serial ∧
    c2Prepared.1.proc_nr = c2ReplyFrame.hdr.proc := by decide

/-- C2, amended: the dispatcher verifies the header's program and version
against the pair selected by the DISPATCHING call's flags (not the located
call's), then locates the call by serial, verifies the header's procedure
against that call's, completes it with the decoded result on OK, moves it to
ERROR with the decoded error record on ERROR, and rejects any other status as a
protocol error. -/
theorem C2_reply_routing_amended (flags : CallFlags) (f : WireFrame)
    (st st2 : DispatchState) (hty : f.hdr.type = REMOTE_REPLY)
    (h : processCallDispatch flags f st = some st2) :
    ReplyRoutingAmended flags f st st2 := by
  unfold processCallDispatch at h
  by_cases hp : f.hdr.prog ≠ expectedProg flags
  · rw [if_pos hp] at h; simp at h
  rw [if_neg hp] at h
  by_cases hv : f.hdr.vers ≠ expectedVers flags
  · rw [if_pos hv] at h; simp at h
  rw [if_neg hv] at h
  rw [if_pos hty] at h
  rcases Option.map_eq_some'.mp h with ⟨cs, hrep, hst2⟩
  unfold processCallDispatchReply at hrep
  rcases updateCallBySerial_some_split hrep with
    ⟨pre, c, post, c2, hsplit, hpre, hcser, hfc, hcs2⟩
  by_cases hproc : f.hdr.proc ≠ c.proc_nr
  · rw [if_pos hproc] at hfc; simp at hfc
  rw [if_neg hproc] at hfc
  push_neg at hp hv hproc
  subst hst2
  refine ⟨hp, hv, rfl, rfl, pre, c, post, hsplit, hpre, hcser, hproc, ?_⟩
  by_cases hok : f.hdr.status = REMOTE_OK
  · rw [if_pos hok] at hfc
    rcases Option.map_eq_some'.mp hfc with ⟨r, hr, hc2⟩
    exact Or.inl ⟨hok, r, hr, by simp only []; rw [hcs2, ← hc2]⟩
  · rw [if_neg hok] at hfc
    by_cases herr : f.hdr.status = REMOTE_ERROR
    · rw [if_pos herr] at hfc
      rcases Option.map_eq_some'.mp hfc with ⟨e2, he, hc2⟩
      exact Or.inr ⟨herr, e2, he, by simp only []; rw [hcs2, ← hc2]⟩
    · rw [if_neg herr] at hfc; simp at hfc

/-- C2, witness: the amended routing property holds at a concrete successful
dispatch of an OK reply. -/
theorem C2_reply_routing_amended_witness :
    (c2ReplyFrame.hdr.type = REMOTE_REPLY ∧
      processCallDispatch plainFlags c2ReplyFrame c2wStateIn = some c2wStateOut) ∧
    ReplyRoutingAmended plainFlags c2ReplyFrame c2wStateIn c2wStateOut :=
  ⟨⟨by decide, by decide⟩,
    C2_reply_routing_amended plainFlags c2ReplyFrame c2wStateIn c2wStateOut
      (by decide) (by decide)⟩

/-- C3, counterexample. The claim says a POLLHUP/POLLERR or transport error
terminates the loop AND transitions every outstanding call in the wait queue to
ERROR with a shared connection-lost error, signaling each. In the code the error
label only unlinks the dispatcher's own call and signals the new head: after a
hangup with two sleeping waiters, both remain queued in WAIT_RX with no error
recorded, and only the first of them is signaled. -/
theorem C3_error_cancel_cex :
    remoteIOEventLoopIteration { pollin := false, hup := true } plainFlags none
      c3State = IterationOutcome.errorOut [c3CallB, c3CallC] [c3CallB] ∧
    c3CallB.mode = Mode.WAIT_RX ∧ c3CallB.err = none ∧
    c3CallC.mode = Mode.WAIT_RX ∧ c3CallC.err = none := by decide

/-- C3, amended: on POLLHUP/POLLERR (or a dispatch error on POLLIN) the event
loop terminates with an error, the dispatcher's own call is unlinked from the
head of the queue, the remaining calls are left exactly as they were (no mode or
error is written to them), and only the new head, if any, has its condition
variable signaled so it can take over dispatch and discover the failure itself. -/
theorem C3_error_cancel_amended (flags : CallFlags) (st : DispatchState)
    (thiscall : ThreadCall) (rest : List ThreadCall) (f : WireFrame)
    (hq : st.calls = thiscall :: rest)
    (hthis : terminal thiscall = false)
    (hrest : ∀ c ∈ rest, terminal c = false) :
    remoteIOEventLoopIteration { pollin := false, hup := true } flags none st =
      IterationOutcome.errorOut rest rest.head?.toList ∧
    (processCallDispatch flags f st = none →
      remoteIOEventLoopIteration { pollin := true, hup := true } flags (some f) st =
        IterationOutcome.errorOut rest rest.head?.toList) := by
  rcases filter_terminal_none hrest with ⟨hk, hw⟩
  constructor
  · simp [remoteIOEventLoopIteration, hq, hthis, hk, hw]
  · intro hnone
    simp [remoteIOEventLoopIteration, hq, hnone]

/-- C3, witness: the amended error-path property at a concrete queue of one
dispatcher and two waiters. -/
theorem C3_error_cancel_amended_witness :
    (c3State.calls = c3CallA :: [c3CallB, c3CallC] ∧ terminal c3CallA = false ∧
      (∀ c ∈ [c3CallB, c3CallC], terminal c = false)) ∧
    (remoteIOEventLoopIteration { pollin := false, hup := true } plainFlags none
        c3State =
      IterationOutcome.errorOut [c3CallB, c3CallC] [c3CallB, c3CallC].head?.toList ∧
    (processCallDispatch plainFlags c3BadFrame c3State = none →
      remoteIOEventLoopIteration { pollin := true, hup := true } plainFlags
          (some c3BadFrame) c3State =
        IterationOutcome.errorOut [c3CallB, c3CallC] [c3CallB, c3CallC].head?.toList)) :=
  ⟨⟨by decide, by decide, by decide⟩,
    C3_error_cancel_amended plainFlags c3State c3CallA [c3CallB, c3CallC] c3BadFrame
      (by decide) (by decide) (by decide)⟩

/-- C4, counterexample. The claim says every field of a server-sent error record
is re-raised unchanged, the SOLE exception being the unknown-procedure error
under the quiet-missing flag. Here a record with the secret-warning code from
the QEMU domain — not an unknown-procedure error, and no quiet-missing flag — is
raised with its code rewritten to VIR_ERR_OPERATION_TIMEOUT by the 0.8.0
interop glitch remapping, so the claimed exception is not the only one. -/
theorem C4_error_fidelity_cex :
    remoteIOCleanup plainFlags Mode.ERROR c4GlitchErr =
      CallOutcome.raised
        { domain := VIR_FROM_QEMU, code := VIR_ERR_OPERATION_TIMEOUT,
          level := VIR_ERR_ERROR, str1 := none, str2 := none, str3 := none,
          int1 := 0, int2 := 0, message := [111, 112] } ∧
    VIR_ERR_OPERATION_TIMEOUT ≠ c4GlitchErr.code ∧
    isUnknownProcErr c4GlitchErr = false ∧
    plainFlags.quiet_missing = false := by decide

/-- C4, amended: a reply-carried error record is re-raised with every field
unchanged (the message defaulting to the unknown text when absent) EXCEPT that
(i) the 0.8.0 interop glitch remapping may rewrite certain nwfilter/secret codes
first, and (ii) the unknown-procedure RPC error is always reinterpreted: with
the quiet-missing flag it becomes the -2 UNSUPPORTED sentinel and no error is
raised, without the flag it is raised with its code replaced by
VIR_ERR_NO_SUPPORT and the remaining fields preserved. -/
theorem C4_error_fidelity_amended (flags : CallFlags) (e : RemoteError) :
    (interopFixup e = e → isUnknownProcErr e = false →
      remoteIOCleanup flags Mode.ERROR e =
        CallOutcome.raised
          { domain := e.domain, code := e.code, level := e.level, str1 := e.str1,
            str2 := e.str2, str3 := e.str3, int1 := e.int1, int2 := e.int2,
            message := e.message.getD unknownFallbackMsg }) ∧
    (isUnknownProcErr e = true → flags.quiet_missing = true →
      remoteIOCleanup flags Mode.ERROR e = CallOutcome.unsupported) ∧
    (isUnknownProcErr e = true → flags.quiet_missing = false →
      remoteIOCleanup flags Mode.ERROR e =
        CallOutcome.raised
          { domain := e.domain, code := VIR_ERR_NO_SUPPORT, level := e.level,
            str1 := e.str1, str2 := e.str2, str3 := e.str3, int1 := e.int1,
            int2 := e.int2, message := e.message.getD [] }) := by
  refine ⟨?_, ?_, ?_⟩
  · intro hfix hnup
    simp [remoteIOCleanup, hfix, hnup]
  · intro hup hq
    simp [remoteIOCleanup, interopFixup_unknownProc hup, hup, hq]
  · intro hup hq
    simp [remoteIOCleanup, interopFixup_unknownProc hup, hup, hq]

/-- C4, witness: the amended fidelity property at a concrete untouched record
and at a concrete quiet-missing unknown-procedure record. -/
theorem C4_error_fidelity_amended_witness :
    (interopFixup c4PlainErr = c4PlainErr ∧ isUnknownProcErr c4PlainErr = false ∧
      isUnknownProcErr unknownProcErrRec = true ∧ quietFlags.quiet_missing = true) ∧
    remoteIOCleanup plainFlags Mode.ERROR c4PlainErr =
      CallOutcome.raised
        { domain := c4PlainErr.domain, code := c4PlainErr.code,
          level := c4PlainErr.level, str1 := c4PlainErr.str1,
          str2 := c4PlainErr.str2, str3 := c4PlainErr.str3,
          int1 := c4PlainErr.int1, int2 := c4PlainErr.int2,
          message := c4PlainErr.message.getD unknownFallbackMsg } ∧
    remoteIOCleanup quietFlags Mode.ERROR unknownProcErrRec =
      CallOutcome.unsupported :=
  ⟨⟨by decide, by decide, by decide, by decide⟩,
    (C4_error_fidelity_amended plainFlags c4PlainErr).1 (by decide) (by decide),
    (C4_error_fidelity_amended quietFlags unknownProcErrRec).2.1 (by decide) (by decide)⟩

/-- C5, counterexample. The claim says that without the quiet-missing flag the
canonical unknown-procedure error reaches the caller as an RPC error whose code
is the unknown-procedure code. In the code that error is raised with code
VIR_ERR_NO_SUPPORT (the unsupported-feature code), which is neither the record's
own code (VIR_ERR_RPC) nor any unknown-procedure code. -/
theorem C5_quiet_missing_cex :
    remoteIOCleanup plainFlags Mode.ERROR unknownProcErrRec =
      CallOutcome.raised
        { domain := VIR_FROM_REMOTE, code := VIR_ERR_NO_SUPPORT,
          level := VIR_ERR_ERROR, str1 := none, str2 := none, str3 := none,
          int1 := 0, int2 := 0,
          message := unknownProcMsgStart ++ [58, 32, 50, 49, 50] } ∧
    VIR_ERR_NO_SUPPORT ≠ unknownProcErrRec.code ∧
    VIR_ERR_NO_SUPPORT ≠ VIR_ERR_RPC := by decide

/-- C5, amended: with the quiet-missing flag the canonical unknown-procedure
error becomes the -2 UNSUPPORTED sentinel and nothing is raised; without the
flag the caller receives a raised error whose code is VIR_ERR_NO_SUPPORT
(unsupported feature) with the record's remaining fields preserved. -/
theorem C5_quiet_missing_amended (flags : CallFlags) (e : RemoteError)
    (hup : isUnknownProcErr e = true) :
    (flags.quiet_missing = true →
      remoteIOCleanup flags Mode.ERROR e = CallOutcome.unsupported) ∧
    (flags.quiet_missing = false →
      remoteIOCleanup flags Mode.ERROR e =
        CallOutcome.raised
          { domain := e.domain, code := VIR_ERR_NO_SUPPORT, level := e.level,
            str1 := e.str1, str2 := e.str2, str3 := e.str3, int1 := e.int1,
            int2 := e.int2, message := e.message.getD [] }) := by
  constructor
  · intro hq
    simp [remoteIOCleanup, interopFixup_unknownProc hup, hup, hq]
  · intro hq
    simp [remoteIOCleanup, interopFixup_unknownProc hup, hup, hq]

/-- C5, witness: both directions at the concrete canonical unknown-procedure
record. -/
theorem C5_quiet_missing_amended_witness :
    (isUnknownProcErr unknownProcErrRec = true ∧
      quietFlags.quiet_missing = true ∧ plainFlags.quiet_missing = false) ∧
    remoteIOCleanup quietFlags Mode.ERROR unknownProcErrRec =
      CallOutcome.unsupported ∧
    remoteIOCleanup plainFlags Mode.ERROR unknownProcErrRec =
      CallOutcome.raised
        { domain := unknownProcErrRec.domain, code := VIR_ERR_NO_SUPPORT,
          level := unknownProcErrRec.level, str1 := unknownProcErrRec.str1,
          str2 := unknownProcErrRec.str2, str3 := unknownProcErrRec.str3,
          int1 := unknownProcErrRec.int1, int2 := unknownProcErrRec.int2,
          message := unknownProcErrRec.message.getD [] } :=
  ⟨⟨by decide, by decide, by decide⟩,
    (C5_quiet_missing_amended quietFlags unknownProcErrRec (by decide)).1 (by decide),
    (C5_quiet_missing_amended plainFlags unknownProcErrRec (by decide)).2 (by decide)⟩

/-- C7. The length-word decoder accepts a frame for further reading exactly when
the declared total length (inclusive of the 4-byte length word) is at least
REMOTE_MESSAGE_HEADER_XDR_LEN and at most 4 + REMOTE_MESSAGE_MAX; every other
declared length is rejected before the body is read. -/
theorem C7_frame_length_bounds (bufferLength : Nat) (buffer : List Nat) (len : Nat)
    (hdec : xdrDecodeU32 buffer = some len) :
    (remoteIODecodeMessageLength bufferLength buffer).isSome = true ↔
      (REMOTE_MESSAGE_HEADER_XDR_LEN ≤ len ∧ len ≤ 4 + REMOTE_MESSAGE_MAX) := by
  simp only [remoteIODecodeMessageLength, hdec]
  by_cases h1 : len < REMOTE_MESSAGE_HEADER_XDR_LEN
  · rw [if_pos h1]
    simp [REMOTE_MESSAGE_HEADER_XDR_LEN, REMOTE_MESSAGE_MAX] at h1 ⊢
    omega
  · rw [if_neg h1]
    by_cases h2 : len - REMOTE_MESSAGE_HEADER_XDR_LEN > REMOTE_MESSAGE_MAX
    · rw [if_pos h2]
      simp [REMOTE_MESSAGE_HEADER_XDR_LEN, REMOTE_MESSAGE_MAX] at h1 h2 ⊢
      omega
    · rw [if_neg h2]
      simp [REMOTE_MESSAGE_HEADER_XDR_LEN, REMOTE_MESSAGE_MAX] at h1 h2 ⊢
      omega

/-- C7, witness: a declared total of 28 bytes decodes and is accepted, and the
bound statement holds for it. -/
theorem C7_frame_length_bounds_witness :
    xdrDecodeU32 [0, 0, 0, 28] = some 28 ∧
    ((remoteIODecodeMessageLength 4 [0, 0, 0, 28]).isSome = true ↔
      (REMOTE_MESSAGE_HEADER_XDR_LEN ≤ 28 ∧ 28 ≤ 4 + REMOTE_MESSAGE_MAX)) :=
  ⟨by decide, C7_frame_length_bounds 4 [0, 0, 0, 28] 28 (by decide)⟩

/-- The serials issued by n consecutive prepareCall invocations are the
consecutive counter values. -/
theorem issueCalls_serials (flags : CallFlags) (proc_nr argsLen : Nat) :
    ∀ (n counter : Nat),
      ((issueCalls flags proc_nr argsLen counter n).1.map (fun c => c.serial)) =
        List.range' counter n := by
  intro n
  induction n with
  | zero => intro counter; rfl
  | succ n ih =>
    intro counter
    simp [issueCalls, prepareCall, List.range', ih]

/-- C8. Serial issuance by the incrementing per-connection counter never repeats
within one connection: across any n calls created through prepareCall from any
starting counter value, the assigned serial numbers are pairwise distinct. (The
C counter is a machine int whose signed overflow — after 2^31 calls — is
undefined behaviour; executions are modelled up to that point, with the counter
as an unbounded natural.) -/
theorem C8_serial_uniqueness (flags : CallFlags) (proc_nr argsLen counter n : Nat) :
    (((issueCalls flags proc_nr argsLen counter n).1).map (fun c => c.serial)).Nodup := by
  rw [issueCalls_serials]
  exact List.nodup_range' _ _ _ (by norm_num)

/-- C9. receive on a stream without a stored error behaves as claimed: with an
empty inbound buffer a non-blocking stream reports would-block (-2); otherwise,
with b the inbound buffer after any blocking wait (b is the current buffer when
it is non-empty), min(len(buffer), buffered) bytes are copied from the front,
that count is returned, and the remaining bytes move to the front. -/
theorem C9_stream_recv_spec (nonblock : Bool) (incoming afterWait b : List Nat)
    (nbytes : Nat) (hb : b = if incoming = [] then afterWait else incoming) :
    (incoming = [] ∧ nonblock = true →
      remoteStreamRecv nonblock false true incoming afterWait nbytes =
        StreamRecvResult.wouldBlock) ∧
    (¬(incoming = [] ∧ nonblock = true) →
      remoteStreamRecv nonblock false true incoming afterWait nbytes =
        StreamRecvResult.bytes (b.take (min b.length nbytes))
          (b.drop (min b.length nbytes)) ∧
      (b.take (min b.length nbytes)).length = min nbytes b.length ∧
      b.take (min b.length nbytes) ++ b.drop (min b.length nbytes) = b) := by
  constructor
  · rintro ⟨hemp, hnb⟩
    subst hemp
    simp [remoteStreamRecv, hnb]
  · intro hn
    by_cases hemp : incoming = []
    · have hnb : nonblock = false := by
        cases hnb2 : nonblock
        · rfl
        · exact absurd ⟨hemp, hnb2⟩ hn
      subst hemp
      rw [if_pos rfl] at hb
      subst hb
      refine ⟨?_, ?_, List.take_append_drop _ _⟩
      · simp [remoteStreamRecv, hnb, remoteStreamRecvCopy]
      · simp [List.length_take]
        omega
    · have hlen : ¬ incoming.length = 0 := by simpa using hemp
      rw [if_neg hemp] at hb
      subst hb
      refine ⟨?_, ?_, List.take_append_drop _ _⟩
      · simp [remoteStreamRecv, remoteStreamRecvCopy, hlen]
      · simp [List.length_take]
        omega

/-- C9, witness: a blocking receive of 2 bytes from a 3-byte buffer. -/
theorem C9_stream_recv_spec_witness :
    (([1, 2, 3] : List Nat) =
      if ([1, 2, 3] : List Nat) = [] then [9] else [1, 2, 3]) ∧
    ((([1, 2, 3] : List Nat) = [] ∧ false = true →
      remoteStreamRecv false false true [1, 2, 3] [9] 2 =
        StreamRecvResult.wouldBlock) ∧
    (¬(([1, 2, 3] : List Nat) = [] ∧ false = true) →
      remoteStreamRecv false false true [1, 2, 3] [9] 2 =
        StreamRecvResult.bytes
          (([1, 2, 3] : List Nat).take (min ([1, 2, 3] : List Nat).length 2))
          (([1, 2, 3] : List Nat).drop (min ([1, 2, 3] : List Nat).length 2)) ∧
      ((([1, 2, 3] : List Nat).take (min ([1, 2, 3] : List Nat).length 2)).length =
        min 2 ([1, 2, 3] : List Nat).length) ∧
      (([1, 2, 3] : List Nat).take (min ([1, 2, 3] : List Nat).length 2) ++
        ([1, 2, 3] : List Nat).drop (min ([1, 2, 3] : List Nat).length 2) =
        [1, 2, 3]))) :=
  ⟨by decide, C9_stream_recv_spec false [1, 2, 3] [9] [1, 2, 3] 2 (by decide)⟩

/-- C10. Every call prepareCall builds has want_reply set, so once its buffer is
fully transmitted the write sub-machine moves it to WAIT_RX (never straight to
COMPLETE); among stream packets (statuses OK, ERROR, CONTINUE), exactly the
CONTINUE packets are built with want_reply clear and complete at transmission,
while OK and ERROR packets expect a reply. -/
theorem C10_want_reply_modes (counter : Nat) (flags : CallFlags)
    (proc_nr argsLen serial spr stnum nbytes : Nat) (c : ThreadCall)
    (hst : stnum = REMOTE_OK ∨ stnum = REMOTE_ERROR ∨ stnum = REMOTE_CONTINUE)
    (hc : remoteStreamPacket serial spr stnum nbytes = some c) :
    (prepareCall counter flags proc_nr argsLen).1.want_reply = true ∧
    (remoteIOWriteMessage (prepareCall counter flags proc_nr argsLen).1
      (prepareCall counter flags proc_nr argsLen).1.bufferLength).mode =
        Mode.WAIT_RX ∧
    (c.want_reply = false ↔ stnum = REMOTE_CONTINUE) ∧
    ((remoteIOWriteMessage c (c.bufferLength - c.bufferOffset)).mode =
        Mode.COMPLETE ↔ stnum = REMOTE_CONTINUE) := by
  refine ⟨rfl, ?_, ?_⟩
  · simp [prepareCall, remoteIOWriteMessage]
  rcases hst with rfl | rfl | rfl
  · simp only [remoteStreamPacket] at hc
    rw [if_neg (by simp [REMOTE_OK, REMOTE_CONTINUE])] at hc
    have hceq := Option.some.inj hc
    subst hceq
    constructor
    · simp [REMOTE_OK, REMOTE_ERROR, REMOTE_CONTINUE]
    · simp [remoteIOWriteMessage, REMOTE_OK, REMOTE_ERROR, REMOTE_CONTINUE]
  · simp only [remoteStreamPacket] at hc
    rw [if_neg (by simp [REMOTE_ERROR, REMOTE_CONTINUE])] at hc
    have hceq := Option.some.inj hc
    subst hceq
    constructor
    · simp [REMOTE_OK, REMOTE_ERROR, REMOTE_CONTINUE]
    · simp [remoteIOWriteMessage, REMOTE_OK, REMOTE_ERROR, REMOTE_CONTINUE]
  · simp only [remoteStreamPacket] at hc
    by_cases hbig :
      (4 + REMOTE_MESSAGE_MAX) - (REMOTE_MESSAGE_HEADER_XDR_LEN + headerXdrSize) < nbytes
    · rw [if_pos (by simp [hbig])] at hc
      simp at hc
    · rw [if_neg (by simp [hbig])] at hc
      have hceq := Option.some.inj hc
      subst hceq
      constructor
      · simp [REMOTE_OK, REMOTE_ERROR, REMOTE_CONTINUE]
      · simp [remoteIOWriteMessage, REMOTE_OK, REMOTE_ERROR, REMOTE_CONTINUE]

/-- C10, witness: a prepared RPC call and a concrete stream OK packet. -/
theorem C10_want_reply_modes_witness :
    ((REMOTE_OK = REMOTE_OK ∨ REMOTE_OK = REMOTE_ERROR ∨
        REMOTE_OK = REMOTE_CONTINUE) ∧
      remoteStreamPacket 1 3 REMOTE_OK 0 = some c10Packet) ∧
    ((prepareCall 0 plainFlags 7 10).1.want_reply = true ∧
    (remoteIOWriteMessage (prepareCall 0 plainFlags 7 10).1
      (prepareCall 0 plainFlags 7 10).1.bufferLength).mode = Mode.WAIT_RX ∧
    (c10Packet.want_reply = false ↔ REMOTE_OK = REMOTE_CONTINUE) ∧
    ((remoteIOWriteMessage c10Packet (c10Packet.bufferLength - c10Packet.bufferOffset)).mode =
        Mode.COMPLETE ↔ REMOTE_OK = REMOTE_CONTINUE)) :=
  ⟨⟨by decide, by decide⟩,
    C10_want_reply_modes 0 plainFlags 7 10 1 3 REMOTE_OK 0 c10Packet
      (by decide) (by decide)⟩

end RemoteDriver
